import Mathlib

/-!
A shallow embedding of the PID-Control-Simulator program (src/main.cpp).
Real-valued quantities (C++ doubles) are modelled as rationals, so all
arithmetic is exact. Stateful C++ methods become functions returning the
updated state. The SDL rendering and window code carries no simulation
logic and is not modelled.
-/

namespace PIDSim

/-- constexpr int WINDOW_WIDTH = 800 -/
def WINDOW_WIDTH : ℚ := 800

/-- constexpr int WINDOW_HEIGHT = 800 -/
def WINDOW_HEIGHT : ℚ := 800

/-- constexpr int BALL_SIZE = 30 -/
def BALL_SIZE : ℚ := 30

/-- constexpr double GRAVITY = 98 -/
def GRAVITY : ℚ := 98

/-- constexpr double FIXED_TIMESTEP = 1.0 / 60.0 -/
def FIXED_TIMESTEP : ℚ := 1 / 60

/-- std::clamp(v, lo, hi): lo if v < lo, hi if hi < v, otherwise v. -/
def clamp (v lo hi : ℚ) : ℚ :=
  if v < lo then lo else if hi < v then hi else v

/-- The PID_Controller class: gains plus integral / prev_error memory. -/
structure PID_Controller where
  Kp : ℚ
  Ki : ℚ
  Kd : ℚ
  integral : ℚ
  prev_error : ℚ
deriving DecidableEq

/-- PID_Controller(kp, ki, kd): member initializers leave integral = 0,
prev_error = 0 (their in-class defaults). -/
def PID_Controller.mkController (kp ki kd : ℚ) : PID_Controller :=
  ⟨kp, ki, kd, 0, 0⟩

/-- double calculate(double setpoint, double pv, double dt): returns the
control output paired with the mutated controller state. -/
def PID_Controller.calculate (c : PID_Controller) (setpoint pv dt : ℚ) :
    ℚ × PID_Controller :=
  let error := setpoint - pv
  let integral1 := clamp (c.integral + error * dt) (-1000) 1000
  let derivative := (error - c.prev_error) / dt
  (c.Kp * error + c.Ki * integral1 + c.Kd * derivative,
   { c with integral := integral1, prev_error := error })

/-- void reset(): zero integral and prev_error, gains untouched. -/
def PID_Controller.reset (c : PID_Controller) : PID_Controller :=
  { c with integral := 0, prev_error := 0 }

/-- The Ball class: vertical position y and velocity (the SDL_Rect is
render-only and not modelled). -/
structure Ball where
  y : ℚ
  velocity : ℚ
deriving DecidableEq

/-- Ball(): y starts at WINDOW_HEIGHT / 2.0, velocity at 0. -/
def Ball.init : Ball := ⟨WINDOW_HEIGHT / 2, 0⟩

/-- void apply_boundary_constraints(): clamp y at 0 and at
WINDOW_HEIGHT - BALL_SIZE, scaling velocity by -0.3 at either bound. -/
def Ball.apply_boundary_constraints (b : Ball) : Ball :=
  if b.y < 0 then
    { y := 0, velocity := b.velocity * (-3 / 10) }
  else if b.y > WINDOW_HEIGHT - BALL_SIZE then
    { y := WINDOW_HEIGHT - BALL_SIZE, velocity := b.velocity * (-3 / 10) }
  else b

/-- void update(double force, double dt): semi-implicit Euler step
followed by the boundary constraints. -/
def Ball.update (b : Ball) (force dt : ℚ) : Ball :=
  let acceleration := force - GRAVITY
  let velocity1 := b.velocity + acceleration * dt
  let y1 := b.y + velocity1 * dt
  Ball.apply_boundary_constraints { y := y1, velocity := velocity1 }

/-- The simulation-relevant members of class App: the ball, the PID
controller and the setpoint (window, renderer and font are I/O handles). -/
structure App where
  ball : Ball
  pid : PID_Controller
  setpoint : ℚ
deriving DecidableEq

/-- App member initializers: pid{80.0, 0, 0}, setpoint = WINDOW_HEIGHT / 2.0. -/
def App.init : App :=
  ⟨Ball.init, PID_Controller.mkController 80 0 0, WINDOW_HEIGHT / 2⟩

/-- The SDL key codes handled by handle_keypress (default branch: other). -/
inductive SDLKey where
  | up
  | down
  | left
  | right
  | pageup
  | pagedown
  | r
  | other
deriving DecidableEq

/-- The SDL event kinds inspected by handle_events. -/
inductive Event where
  | quit
  | mouseButtonDown (y : ℚ)
  | keyDown (k : SDLKey)
deriving DecidableEq

/-- void handle_keypress(SDL_Keycode key): gain adjustments with step 5.0
for Kp / Kd and 0.1 for Ki, decreases clamped at 0; key r resets the PID. -/
def App.handle_keypress (a : App) (key : SDLKey) : App :=
  let step : ℚ := 5
  match key with
  | .up => { a with pid := { a.pid with Kp := a.pid.Kp + step } }
  | .down => { a with pid := { a.pid with Kp := max 0 (a.pid.Kp - step) } }
  | .left => { a with pid := { a.pid with Ki := max 0 (a.pid.Ki - 1 / 10) } }
  | .right => { a with pid := { a.pid with Ki := a.pid.Ki + 1 / 10 } }
  | .pageup => { a with pid := { a.pid with Kd := a.pid.Kd + step } }
  | .pagedown => { a with pid := { a.pid with Kd := max 0 (a.pid.Kd - step) } }
  | .r => { a with pid := a.pid.reset }
  | .other => a

/-- One iteration of the SDL_PollEvent loop in handle_events: SDL_QUIT
clears the running flag, SDL_MOUSEBUTTONDOWN sets setpoint to the click
y coordinate, SDL_KEYDOWN dispatches to handle_keypress. -/
def App.handle_event (a : App) (running : Bool) (e : Event) : App × Bool :=
  match e with
  | .quit => (a, false)
  | .mouseButtonDown y => ({ a with setpoint := y }, running)
  | .keyDown k => (a.handle_keypress k, running)

/-- void update_physics(double dt): force = pid.calculate(setpoint,
ball.y + BALL_SIZE/2, dt); ball.update(force, dt). -/
def App.update_physics (a : App) (dt : ℚ) : App :=
  let force := a.pid.calculate a.setpoint (a.ball.y + BALL_SIZE / 2) dt
  { a with pid := force.2, ball := a.ball.update force.1 dt }

/-- Measure fact used for loop termination: subtracting FIXED_TIMESTEP
drops the floor of 60 times the accumulator by one. -/
theorem floor_sub_fixed (acc : ℚ) :
    ⌊(acc - FIXED_TIMESTEP) * 60⌋ = ⌊acc * 60⌋ - 1 := by
  have h : (acc - FIXED_TIMESTEP) * 60 = acc * 60 - 1 := by
    rw [FIXED_TIMESTEP]; ring
  rw [h, Int.floor_sub_one]

/-- Measure fact: an accumulator at or above FIXED_TIMESTEP has
⌊acc * 60⌋ at least one. -/
theorem one_le_floor_of_fixed_le (acc : ℚ) (h : FIXED_TIMESTEP ≤ acc) :
    1 ≤ ⌊acc * 60⌋ := by
  rw [FIXED_TIMESTEP] at h
  have h60 : ((1 : ℤ) : ℚ) ≤ acc * 60 := by push_cast; linarith
  exact Int.le_floor.mpr h60

/-- The drain loop in App::run: while (accumulator >= FIXED_TIMESTEP)
{ update_physics(FIXED_TIMESTEP); accumulator -= FIXED_TIMESTEP; }.
Returns the state and residual accumulator when the loop exits. -/
def drainLoop (a : App) (accumulator : ℚ) : App × ℚ :=
  if FIXED_TIMESTEP ≤ accumulator then
    drainLoop (a.update_physics FIXED_TIMESTEP) (accumulator - FIXED_TIMESTEP)
  else (a, accumulator)
termination_by (⌊accumulator * 60⌋).toNat
decreasing_by
  have h1 := floor_sub_fixed accumulator
  have h2 := one_le_floor_of_fixed_le accumulator (by assumption)
  omega

/-- The sequence of dt arguments the drain loop passes to
update_physics (hence to PID_Controller.calculate and Ball.update),
as a function of the accumulator on loop entry. -/
def drainDts (accumulator : ℚ) : List ℚ :=
  if FIXED_TIMESTEP ≤ accumulator then
    FIXED_TIMESTEP :: drainDts (accumulator - FIXED_TIMESTEP)
  else []
termination_by (⌊accumulator * 60⌋).toNat
decreasing_by
  have h1 := floor_sub_fixed accumulator
  have h2 := one_le_floor_of_fixed_le accumulator (by assumption)
  omega

/-- Unfolding lemma: the drain loop iterates once when the accumulator
has reached FIXED_TIMESTEP. -/
theorem drainLoop_step (a : App) (acc : ℚ) (h : FIXED_TIMESTEP ≤ acc) :
    drainLoop a acc =
      drainLoop (a.update_physics FIXED_TIMESTEP) (acc - FIXED_TIMESTEP) := by
  rw [drainLoop, if_pos h]

/-- Unfolding lemma: the drain loop exits below FIXED_TIMESTEP. -/
theorem drainLoop_done (a : App) (acc : ℚ) (h : ¬ FIXED_TIMESTEP ≤ acc) :
    drainLoop a acc = (a, acc) := by
  rw [drainLoop, if_neg h]

/-- Unfolding lemma for drainDts in the iterating case. -/
theorem drainDts_step (acc : ℚ) (h : FIXED_TIMESTEP ≤ acc) :
    drainDts acc = FIXED_TIMESTEP :: drainDts (acc - FIXED_TIMESTEP) := by
  rw [drainDts, if_pos h]

/-- Unfolding lemma for drainDts in the exit case. -/
theorem drainDts_done (acc : ℚ) (h : ¬ FIXED_TIMESTEP ≤ acc) :
    drainDts acc = [] := by
  rw [drainDts, if_neg h]

/-- One host frame of App::run restricted to the scheduler: add the frame
delta to the accumulator, then run the drain loop. -/
def frame (s : App × ℚ) (delta : ℚ) : App × ℚ :=
  drainLoop s.1 (s.2 + delta)

/-- A sequence of host frames with the given wall-clock deltas. -/
def runFrames (s : App × ℚ) (deltas : List ℚ) : App × ℚ :=
  List.foldl frame s deltas

/-- A frame is the drain loop on the incremented accumulator. -/
theorem frame_eval (a : App) (acc delta : ℚ) :
    frame (a, acc) delta = drainLoop a (acc + delta) := rfl

/-- A frame whose accumulated time stays below FIXED_TIMESTEP runs no
physics step. -/
theorem frame_no_step (a : App) (acc delta : ℚ)
    (h : ¬ FIXED_TIMESTEP ≤ acc + delta) :
    frame (a, acc) delta = (a, acc + delta) := by
  unfold frame
  exact drainLoop_done _ _ h

/-- A frame whose accumulated time reaches FIXED_TIMESTEP exactly once
runs one physics step. -/
theorem frame_one_step (a : App) (acc delta : ℚ)
    (h1 : FIXED_TIMESTEP ≤ acc + delta)
    (h2 : ¬ FIXED_TIMESTEP ≤ acc + delta - FIXED_TIMESTEP) :
    frame (a, acc) delta =
      (a.update_physics FIXED_TIMESTEP, acc + delta - FIXED_TIMESTEP) := by
  unfold frame
  rw [drainLoop_step _ _ h1, drainLoop_done _ _ h2]

/-! Theorems about the embedded program. -/

/-- Claim C1: for every call to calculate with dt > 0, error =
setpoint - pv, the integral is incremented by error * dt then clamped to
[-1000, 1000], the derivative is (error - prev_error) / dt, prev_error
becomes error, and the output is Kp*error + Ki*integral + Kd*derivative
with the post-clamp integral. -/
theorem calculate_spec (c : PID_Controller) (setpoint pv dt : ℚ)
    (hdt : 0 < dt) :
    c.calculate setpoint pv dt =
      (c.Kp * (setpoint - pv)
        + c.Ki * clamp (c.integral + (setpoint - pv) * dt) (-1000) 1000
        + c.Kd * ((setpoint - pv - c.prev_error) / dt),
       { c with
          integral := clamp (c.integral + (setpoint - pv) * dt) (-1000) 1000,
          prev_error := setpoint - pv }) := rfl

/-- Witness for C1 at Kp = 80, Ki = 0, Kd = 0, setpoint 400, pv 350,
dt = 1. -/
theorem calculate_spec_witness :
    (0 : ℚ) < 1 ∧
    (PID_Controller.mkController 80 0 0).calculate 400 350 1 =
      ((PID_Controller.mkController 80 0 0).Kp * (400 - 350)
        + (PID_Controller.mkController 80 0 0).Ki *
            clamp ((PID_Controller.mkController 80 0 0).integral
              + (400 - 350) * 1) (-1000) 1000
        + (PID_Controller.mkController 80 0 0).Kd *
            ((400 - 350 - (PID_Controller.mkController 80 0 0).prev_error) / 1),
       { PID_Controller.mkController 80 0 0 with
          integral := clamp ((PID_Controller.mkController 80 0 0).integral
            + (400 - 350) * 1) (-1000) 1000,
          prev_error := 400 - 350 }) :=
  ⟨by norm_num, calculate_spec (PID_Controller.mkController 80 0 0) 400 350 1 (by norm_num)⟩

/-- After any single calculate call the stored integral is clamped. -/
theorem abs_integral_calculate_le (c : PID_Controller) (setpoint pv dt : ℚ) :
    |((c.calculate setpoint pv dt).2).integral| ≤ 1000 := by
  simp only [PID_Controller.calculate, clamp]
  split_ifs with h1 h2
  · norm_num
  · norm_num
  · rw [abs_le]; constructor <;> linarith

/-- Folding calculate over a list of (setpoint, pv, dt) inputs. -/
def calcStep (c : PID_Controller) (t : ℚ × ℚ × ℚ) : PID_Controller :=
  (c.calculate t.1 t.2.1 t.2.2).2

/-- Claim C2: for every sequence of calculate calls (from any starting
controller, hence in particular from a fresh or reset one), the invariant
|integral| ≤ 1000 holds immediately after every call: after any
nonempty input sequence the integral has absolute value at most 1000. -/
theorem integral_always_clamped (c : PID_Controller)
    (l : List (ℚ × ℚ × ℚ)) (t : ℚ × ℚ × ℚ) :
    |(List.foldl calcStep c (l ++ [t])).integral| ≤ 1000 := by
  rw [List.foldl_append]
  exact abs_integral_calculate_le _ _ _ _

/-- Claim C3: after every Ball.update with dt > 0 the position satisfies
0 ≤ y ≤ WINDOW_HEIGHT - BALL_SIZE; the clamp is enforced at the end of
every step at both bounds. -/
theorem update_position_invariant (b : Ball) (force dt : ℚ)
    (hdt : 0 < dt) :
    0 ≤ (b.update force dt).y ∧
    (b.update force dt).y ≤ WINDOW_HEIGHT - BALL_SIZE := by
  unfold Ball.update Ball.apply_boundary_constraints
  simp only [WINDOW_HEIGHT, BALL_SIZE]
  split_ifs with h1 h2
  · norm_num
  · norm_num
  · constructor
    · simpa using not_lt.mp h1
    · simpa using not_lt.mp h2

/-- Witness for C3 at the initial ball, zero force, dt = 1. -/
theorem update_position_invariant_witness :
    (0 : ℚ) < 1 ∧
    (0 ≤ (Ball.init.update 0 1).y ∧
      (Ball.init.update 0 1).y ≤ WINDOW_HEIGHT - BALL_SIZE) :=
  ⟨by norm_num, update_position_invariant Ball.init 0 1 (by norm_num)⟩

/-- Counterexample to claim C4: a ball at y = 0 with velocity -5, given
force 0 (net downward) and dt = 1/60, has raw position below 0, so it is
clamped to 0, but the post-update velocity is 199/100 = 1.99, not
-(-5)*0.3 = 1.5: the code reflects the post-integration velocity, not the
pre-step velocity -5. -/
theorem bounce_velocity_counterexample :
    (0 : ℚ) + ((-5 : ℚ) + (0 - GRAVITY) * (1 / 60)) * (1 / 60) < 0 ∧
    ((Ball.mk 0 (-5)).update 0 (1 / 60)).y = 0 ∧
    ((Ball.mk 0 (-5)).update 0 (1 / 60)).velocity = 199 / 100 ∧
    ((Ball.mk 0 (-5)).update 0 (1 / 60)).velocity ≠ 3 / 2 := by
  norm_num [Ball.update, Ball.apply_boundary_constraints, GRAVITY,
    WINDOW_HEIGHT, BALL_SIZE]

/-- Claim C4 as amended: whenever integration produces a raw position
strictly beyond a bound, the position is clamped to that bound and the
POST-INTEGRATION velocity v + (force - GRAVITY)*dt (not the pre-step
velocity) is multiplied by -0.3; the 1.5 of the scenario arises only when
the net acceleration over the step is zero. -/
theorem bounce_reflects_new_velocity (b : Ball) (force dt : ℚ) :
    (b.y + (b.velocity + (force - GRAVITY) * dt) * dt < 0 →
      b.update force dt =
        ⟨0, (b.velocity + (force - GRAVITY) * dt) * (-3 / 10)⟩) ∧
    (WINDOW_HEIGHT - BALL_SIZE <
        b.y + (b.velocity + (force - GRAVITY) * dt) * dt →
      b.update force dt =
        ⟨WINDOW_HEIGHT - BALL_SIZE,
          (b.velocity + (force - GRAVITY) * dt) * (-3 / 10)⟩) := by
  constructor
  · intro h
    unfold Ball.update Ball.apply_boundary_constraints
    simp only
    rw [if_pos h]
  · intro h
    unfold Ball.update Ball.apply_boundary_constraints
    simp only [WINDOW_HEIGHT, BALL_SIZE] at h ⊢
    have hnot : ¬(b.y + (b.velocity + (force - GRAVITY) * dt) * dt < 0) := by
      linarith
    rw [if_neg hnot, if_pos h]

/-- Witness for the amended C4 at the counterexample input. -/
theorem bounce_reflects_new_velocity_witness :
    (0 : ℚ) + ((-5 : ℚ) + (0 - GRAVITY) * (1 / 60)) * (1 / 60) < 0 ∧
    (Ball.mk 0 (-5)).update 0 (1 / 60) =
      ⟨0, ((-5 : ℚ) + (0 - GRAVITY) * (1 / 60)) * (-3 / 10)⟩ := by
  have h : (0 : ℚ) + ((-5 : ℚ) + (0 - GRAVITY) * (1 / 60)) * (1 / 60) < 0 := by
    norm_num [GRAVITY]
  exact ⟨h, (bounce_reflects_new_velocity (Ball.mk 0 (-5)) 0 (1 / 60)).1 h⟩

/-- Counterexample to claim C5: with gains Kp = 80, Ki = 1, Kd = 0, after
reset a calculate call with error E = 1 and dt = 1 returns 81, not the
claimed Kp*E + 0 + (E - 0)/D * Kd = 80: the first call after reset already
accumulates Ki * clamp(E*D) into the output, which is nonzero when
Ki is nonzero. -/
theorem reset_integral_counterexample :
    (((PID_Controller.mk 80 1 0 5 3).reset).calculate 1 0 1).1 = 81 ∧
    (80 : ℚ) * 1 + 0 + ((1 - 0) / 1) * 0 = 80 ∧
    (((PID_Controller.mk 80 1 0 5 3).reset).calculate 1 0 1).1 ≠
      80 * 1 + 0 + ((1 - 0) / 1) * 0 := by
  norm_num [PID_Controller.reset, PID_Controller.calculate, clamp]

/-- Claim C5 as amended: immediately after reset, a calculate call with
setpoint sp, measurement pv (error E = sp - pv) and dt D > 0 returns
Kp*E + Ki*clamp(E*D, -1000, 1000) + Kd*E/D: the derivative is indeed
computed against a zero prior error, but the integral term contributes
Ki * clamp(E*D), which is zero only when Ki = 0 (the default gain
configuration) or E = 0. -/
theorem reset_then_calculate (c : PID_Controller) (sp pv dt : ℚ)
    (hdt : 0 < dt) :
    ((c.reset).calculate sp pv dt).1 =
      c.Kp * (sp - pv) + c.Ki * clamp ((sp - pv) * dt) (-1000) 1000
        + c.Kd * ((sp - pv) / dt) := by
  simp [PID_Controller.reset, PID_Controller.calculate]

/-- Witness for the amended C5 at Kp = 80, Ki = 1, Kd = 0, sp = 1,
pv = 0, dt = 1. -/
theorem reset_then_calculate_witness :
    (0 : ℚ) < 1 ∧
    (((PID_Controller.mk 80 1 0 5 3).reset).calculate 1 0 1).1 =
      (PID_Controller.mk 80 1 0 5 3).Kp * (1 - 0)
        + (PID_Controller.mk 80 1 0 5 3).Ki * clamp ((1 - 0) * 1) (-1000) 1000
        + (PID_Controller.mk 80 1 0 5 3).Kd * ((1 - 0) / 1) :=
  ⟨by norm_num,
   reset_then_calculate (PID_Controller.mk 80 1 0 5 3) 1 0 1 (by norm_num)⟩

/-- Fuel-indexed form of the residual bound for the drain loop. -/
theorem drain_residual_aux (n : ℕ) :
    ∀ (a : App) (acc : ℚ), (⌊acc * 60⌋).toNat ≤ n → 0 ≤ acc →
      0 ≤ (drainLoop a acc).2 ∧ (drainLoop a acc).2 < FIXED_TIMESTEP := by
  induction n with
  | zero =>
    intro a acc hn h0
    rw [drainLoop]
    have hlt : ¬ FIXED_TIMESTEP ≤ acc := by
      intro hge
      have := one_le_floor_of_fixed_le acc hge
      omega
    rw [if_neg hlt]
    exact ⟨h0, not_le.mp hlt⟩
  | succ n ih =>
    intro a acc hn h0
    rw [drainLoop]
    by_cases hge : FIXED_TIMESTEP ≤ acc
    · rw [if_pos hge]
      apply ih
      · have h1 := floor_sub_fixed acc
        have h2 := one_le_floor_of_fixed_le acc hge
        omega
      · exact sub_nonneg.mpr hge
    · rw [if_neg hge]
      exact ⟨h0, not_le.mp hge⟩

/-- Claim C6: for every nonnegative accumulator value, after the drain
loop completes the residual satisfies 0 ≤ accumulated_time <
FIXED_TIMESTEP. -/
theorem accumulator_residual_bounds (a : App) (acc : ℚ) (h : 0 ≤ acc) :
    0 ≤ (drainLoop a acc).2 ∧ (drainLoop a acc).2 < FIXED_TIMESTEP :=
  drain_residual_aux (⌊acc * 60⌋).toNat a acc le_rfl h

/-- Witness for C6 at the initial app and accumulator 1/30. -/
theorem accumulator_residual_bounds_witness :
    (0 : ℚ) ≤ 1 / 30 ∧
    (0 ≤ (drainLoop App.init (1 / 30)).2 ∧
      (drainLoop App.init (1 / 30)).2 < FIXED_TIMESTEP) :=
  ⟨by norm_num, accumulator_residual_bounds App.init (1 / 30) (by norm_num)⟩

/-- Claim C7: starting from a freshly zeroed accumulator, one 100 ms
frame delta produces exactly the same scheduler result (same sequence of
fixed steps, hence identical PID and body state, and here even the same
residual, namely 0) as ten successive 10 ms deltas. -/
theorem frame_partition_determinism (a : App) :
    runFrames (a, 0) [1 / 10] =
      runFrames (a, 0)
        [1 / 100, 1 / 100, 1 / 100, 1 / 100, 1 / 100,
         1 / 100, 1 / 100, 1 / 100, 1 / 100, 1 / 100] := by
  have hL : runFrames (a, 0) [1 / 10] =
      ((((((a.update_physics FIXED_TIMESTEP).update_physics
        FIXED_TIMESTEP).update_physics FIXED_TIMESTEP).update_physics
        FIXED_TIMESTEP).update_physics FIXED_TIMESTEP).update_physics
        FIXED_TIMESTEP, (0 : ℚ)) := by
    rw [runFrames, List.foldl_cons, List.foldl_nil]
    rw [frame_eval a 0 (1 / 10)]
    rw [show (0 : ℚ) + 1 / 10 = 1 / 10 by norm_num]
    rw [drainLoop_step _ (1 / 10) (by norm_num [FIXED_TIMESTEP])]
    rw [show (1 : ℚ) / 10 - FIXED_TIMESTEP = 1 / 12 by norm_num [FIXED_TIMESTEP]]
    rw [drainLoop_step _ (1 / 12) (by norm_num [FIXED_TIMESTEP])]
    rw [show (1 : ℚ) / 12 - FIXED_TIMESTEP = 1 / 15 by norm_num [FIXED_TIMESTEP]]
    rw [drainLoop_step _ (1 / 15) (by norm_num [FIXED_TIMESTEP])]
    rw [show (1 : ℚ) / 15 - FIXED_TIMESTEP = 1 / 20 by norm_num [FIXED_TIMESTEP]]
    rw [drainLoop_step _ (1 / 20) (by norm_num [FIXED_TIMESTEP])]
    rw [show (1 : ℚ) / 20 - FIXED_TIMESTEP = 1 / 30 by norm_num [FIXED_TIMESTEP]]
    rw [drainLoop_step _ (1 / 30) (by norm_num [FIXED_TIMESTEP])]
    rw [show (1 : ℚ) / 30 - FIXED_TIMESTEP = 1 / 60 by norm_num [FIXED_TIMESTEP]]
    rw [drainLoop_step _ (1 / 60) (by norm_num [FIXED_TIMESTEP])]
    rw [show (1 : ℚ) / 60 - FIXED_TIMESTEP = 0 by norm_num [FIXED_TIMESTEP]]
    rw [drainLoop_done _ 0 (by norm_num [FIXED_TIMESTEP])]
  have hR : runFrames (a, 0)
        [1 / 100, 1 / 100, 1 / 100, 1 / 100, 1 / 100,
         1 / 100, 1 / 100, 1 / 100, 1 / 100, 1 / 100] =
      ((((((a.update_physics FIXED_TIMESTEP).update_physics
        FIXED_TIMESTEP).update_physics FIXED_TIMESTEP).update_physics
        FIXED_TIMESTEP).update_physics FIXED_TIMESTEP).update_physics
        FIXED_TIMESTEP, (0 : ℚ)) := by
    rw [runFrames, List.foldl_cons, List.foldl_cons, List.foldl_cons,
      List.foldl_cons, List.foldl_cons, List.foldl_cons, List.foldl_cons,
      List.foldl_cons, List.foldl_cons, List.foldl_cons, List.foldl_nil]
    rw [frame_no_step a 0 (1 / 100) (by norm_num [FIXED_TIMESTEP])]
    rw [show (0 : ℚ) + 1 / 100 = 1 / 100 by norm_num]
    rw [frame_one_step a (1 / 100) (1 / 100) (by norm_num [FIXED_TIMESTEP])
      (by norm_num [FIXED_TIMESTEP])]
    rw [show (1 : ℚ) / 100 + 1 / 100 - FIXED_TIMESTEP = 1 / 300 by
      norm_num [FIXED_TIMESTEP]]
    rw [frame_no_step _ (1 / 300) (1 / 100) (by norm_num [FIXED_TIMESTEP])]
    rw [show (1 : ℚ) / 300 + 1 / 100 = 1 / 75 by norm_num]
    rw [frame_one_step _ (1 / 75) (1 / 100) (by norm_num [FIXED_TIMESTEP])
      (by norm_num [FIXED_TIMESTEP])]
    rw [show (1 : ℚ) / 75 + 1 / 100 - FIXED_TIMESTEP = 1 / 150 by
      norm_num [FIXED_TIMESTEP]]
    rw [frame_one_step _ (1 / 150) (1 / 100) (by norm_num [FIXED_TIMESTEP])
      (by norm_num [FIXED_TIMESTEP])]
    rw [show (1 : ℚ) / 150 + 1 / 100 - FIXED_TIMESTEP = 0 by
      norm_num [FIXED_TIMESTEP]]
    rw [frame_no_step _ 0 (1 / 100) (by norm_num [FIXED_TIMESTEP])]
    rw [show (0 : ℚ) + 1 / 100 = 1 / 100 by norm_num]
    rw [frame_one_step _ (1 / 100) (1 / 100) (by norm_num [FIXED_TIMESTEP])
      (by norm_num [FIXED_TIMESTEP])]
    rw [show (1 : ℚ) / 100 + 1 / 100 - FIXED_TIMESTEP = 1 / 300 by
      norm_num [FIXED_TIMESTEP]]
    rw [frame_no_step _ (1 / 300) (1 / 100) (by norm_num [FIXED_TIMESTEP])]
    rw [show (1 : ℚ) / 300 + 1 / 100 = 1 / 75 by norm_num]
    rw [frame_one_step _ (1 / 75) (1 / 100) (by norm_num [FIXED_TIMESTEP])
      (by norm_num [FIXED_TIMESTEP])]
    rw [show (1 : ℚ) / 75 + 1 / 100 - FIXED_TIMESTEP = 1 / 150 by
      norm_num [FIXED_TIMESTEP]]
    rw [frame_one_step _ (1 / 150) (1 / 100) (by norm_num [FIXED_TIMESTEP])
      (by norm_num [FIXED_TIMESTEP])]
    rw [show (1 : ℚ) / 150 + 1 / 100 - FIXED_TIMESTEP = 0 by
      norm_num [FIXED_TIMESTEP]]
  rw [hL, hR]

/-- Counterexample to claim C8: a mouse-button-down event at y = 100 on a
state whose controller holds integral = 5 sets the setpoint but leaves the
integral at 5, not 0: handle_events never calls reset on a click. -/
theorem click_does_not_reset_counterexample :
    ((App.mk Ball.init (PID_Controller.mk 80 0 0 5 0) 400).handle_event true
        (Event.mouseButtonDown 100)).1.setpoint = 100 ∧
    ((App.mk Ball.init (PID_Controller.mk 80 0 0 5 0) 400).handle_event true
        (Event.mouseButtonDown 100)).1.pid.integral = 5 ∧
    (5 : ℚ) ≠ 0 := by
  norm_num [App.handle_event]

/-- Claim C8 as amended: a primary pointer press at coordinate y sets
setpoint := y and changes nothing else: the PID controller (its integral
included) and the ball are untouched, and no reset is triggered. -/
theorem mouse_press_sets_setpoint_only (a : App) (r : Bool) (y : ℚ) :
    (a.handle_event r (Event.mouseButtonDown y)).1.setpoint = y ∧
    (a.handle_event r (Event.mouseButtonDown y)).1.pid = a.pid ∧
    (a.handle_event r (Event.mouseButtonDown y)).1.ball = a.ball ∧
    (a.handle_event r (Event.mouseButtonDown y)).2 = r := by
  simp [App.handle_event]

/-- Fuel-indexed lemma: every dt the drain loop emits is FIXED_TIMESTEP. -/
theorem drainDts_mem_fixed (n : ℕ) :
    ∀ (acc dt : ℚ), (⌊acc * 60⌋).toNat ≤ n → dt ∈ drainDts acc →
      dt = FIXED_TIMESTEP := by
  induction n with
  | zero =>
    intro acc dt hn hmem
    rw [drainDts] at hmem
    by_cases hge : FIXED_TIMESTEP ≤ acc
    · have := one_le_floor_of_fixed_le acc hge
      omega
    · rw [if_neg hge] at hmem
      simp at hmem
  | succ n ih =>
    intro acc dt hn hmem
    rw [drainDts] at hmem
    by_cases hge : FIXED_TIMESTEP ≤ acc
    · rw [if_pos hge] at hmem
      rcases List.mem_cons.mp hmem with h | h
      · exact h
      · apply ih (acc - FIXED_TIMESTEP) dt _ h
        have h1 := floor_sub_fixed acc
        have h2 := one_le_floor_of_fixed_le acc hge
        omega
    · rw [if_neg hge] at hmem
      simp at hmem

/-- Fuel-indexed lemma: the drain loop is the fold of update_physics over
the dt list it emits. -/
theorem drainLoop_foldl_aux (n : ℕ) :
    ∀ (a : App) (acc : ℚ), (⌊acc * 60⌋).toNat ≤ n →
      (drainLoop a acc).1 = List.foldl App.update_physics a (drainDts acc) := by
  induction n with
  | zero =>
    intro a acc hn
    rw [drainLoop, drainDts]
    by_cases hge : FIXED_TIMESTEP ≤ acc
    · have := one_le_floor_of_fixed_le acc hge
      omega
    · rw [if_neg hge, if_neg hge]
      simp
  | succ n ih =>
    intro a acc hn
    rw [drainLoop, drainDts]
    by_cases hge : FIXED_TIMESTEP ≤ acc
    · rw [if_pos hge, if_pos hge, List.foldl_cons]
      apply ih
      have h1 := floor_sub_fixed acc
      have h2 := one_le_floor_of_fixed_le acc hge
      omega
    · rw [if_neg hge, if_neg hge]
      simp

/-- Claim C9: under the composition of the program, every timestep the
drain loop passes to update_physics (hence to calculate and its derivative
division) equals FIXED_TIMESTEP = 1/60 > 0, so the dt ≤ 0 case is
unreachable: the drain loop is exactly the fold of update_physics over
the emitted dt list, every element of which is FIXED_TIMESTEP. -/
theorem drain_dt_always_fixed (a : App) (acc dt : ℚ)
    (hmem : dt ∈ drainDts acc) :
    dt = FIXED_TIMESTEP ∧ 0 < dt ∧ FIXED_TIMESTEP = 1 / 60 ∧
    (drainLoop a acc).1 = List.foldl App.update_physics a (drainDts acc) := by
  have he := drainDts_mem_fixed (⌊acc * 60⌋).toNat acc dt le_rfl hmem
  refine ⟨he, ?_, rfl, drainLoop_foldl_aux (⌊acc * 60⌋).toNat a acc le_rfl⟩
  rw [he, FIXED_TIMESTEP]
  norm_num

/-- Witness for C9 at accumulator 1/60, whose emitted dt list is
[1/60]. -/
theorem drain_dt_always_fixed_witness :
    ((1 : ℚ) / 60 ∈ drainDts (1 / 60)) ∧
    ((1 : ℚ) / 60 = FIXED_TIMESTEP ∧ 0 < (1 : ℚ) / 60 ∧
      FIXED_TIMESTEP = 1 / 60 ∧
      (drainLoop App.init (1 / 60)).1 =
        List.foldl App.update_physics App.init (drainDts (1 / 60))) := by
  have hmem : (1 : ℚ) / 60 ∈ drainDts (1 / 60) := by
    rw [drainDts_step (1 / 60) (by norm_num [FIXED_TIMESTEP])]
    rw [show (1 : ℚ) / 60 - FIXED_TIMESTEP = 0 by norm_num [FIXED_TIMESTEP]]
    rw [drainDts_done 0 (by norm_num [FIXED_TIMESTEP])]
    simp [FIXED_TIMESTEP]
  exact ⟨hmem, drain_dt_always_fixed App.init (1 / 60) (1 / 60) hmem⟩

/-- Claim C10: update_physics passes the vertical center
ball.y + BALL_SIZE/2 as the measured value and the stored setpoint (the
raw click coordinate, as a press at y sets setpoint := y) to calculate,
so the error is zero exactly when the top edge y sits BALL_SIZE/2 above
the setpoint line. -/
theorem measured_value_is_ball_center (a : App) (dt : ℚ) (r : Bool) (y : ℚ) :
    a.update_physics dt =
      { a with
        pid := (a.pid.calculate a.setpoint (a.ball.y + BALL_SIZE / 2) dt).2,
        ball := a.ball.update
          (a.pid.calculate a.setpoint (a.ball.y + BALL_SIZE / 2) dt).1 dt } ∧
    (a.setpoint - (a.ball.y + BALL_SIZE / 2) = 0 ↔
      a.ball.y = a.setpoint - BALL_SIZE / 2) ∧
    (a.handle_event r (Event.mouseButtonDown y)).1.setpoint = y := by
  refine ⟨rfl, ?_, rfl⟩
  constructor <;> intro h <;> linarith

end PIDSim
